import Mathlib

/-!
Verification of the plant-health classification core of the Aerogrowthsquad
repository.

The definitions below are shallow embeddings of the Python sources:

* `get_crop_adjustment`, `simulate_web_model_prediction`, `analyze_image_features`
  embed the functions of the same names in `test_new_crops_model.py`
  (machine floats are modelled by exact rationals, and the image statistics,
  which involve a square root, by real numbers; the Gaussian jitter draw of
  line 113 is an explicit `jitter` argument, since any real draw is possible).
* `vercel_is_healthy`, `vercel_confidence`, `preprocess_image_vercel`,
  `vercel_do_POST_status`, `get_crop_recommendations` embed `api/predict.py`
  (lines 139-140, 47-75, 114-171, 77-111).
* `flask_is_healthy`, `flask_confidence`, `preprocess_image_flask`,
  `flask_predict_status`, `get_crop_specific_recommendations` embed
  `create_ml_api.py` (lines 151-152, 40-70, 117-181, 72-106); the decision
  and recommendation code there is textually identical to the Vercel copy.
* `sim_is_healthy` embeds the heuristic-path threshold test of
  `test_new_crops_model.py` line 222.

Python `int()` on a nonnegative value truncates, which `pyInt` models; Python
substring membership `needle in hay` is modelled by `strHas` on character
lists, and `str.lower` by `lowerString` (all labels involved are ASCII).
-/

/-- Lowercase every character of a character list (model of Python
`str.lower` restricted to ASCII data, where it agrees with `Char.toLower`). -/
def lowerChars (l : List Char) : List Char := l.map Char.toLower

/-- Boolean test that the first list is an initial segment of the second. -/
def leadsChars : List Char → List Char → Bool
  | [], _ => true
  | _ :: _, [] => false
  | a :: as, b :: bs => a == b && leadsChars as bs

/-- Boolean test that `needle` occurs contiguously inside the second list
(model of Python `needle in hay` on strings). -/
def occursIn (needle : List Char) : List Char → Bool
  | [] => leadsChars needle []
  | b :: bs => leadsChars needle (b :: bs) || occursIn needle bs

/-- Substring membership on strings: `strHas hay needle` models the Python
expression `needle in hay`. -/
def strHas (hay needle : String) : Bool := occursIn needle.data hay.data

/-- Lowercase a string (model of Python `str.lower` on ASCII data). -/
def lowerString (s : String) : String := ⟨lowerChars s.data⟩

/-- Model of Python `x or default` for an optional string: `None` and the
empty string are falsy and give the default. -/
def py_or (s : Option String) (dflt : String) : String :=
  match s with
  | none => dflt
  | some t => if t.isEmpty then dflt else t

/-- Embedding of `get_crop_adjustment` (test_new_crops_model.py lines
120-140).  A `None` label is modelled by `none`; Python `if not crop_type`
is true for `None` and for the empty string. -/
def get_crop_adjustment (crop_type : Option String) : ℚ :=
  match crop_type with
  | none => 0
  | some s =>
    if s.isEmpty then 0
    else
      let crop := lowerString s
      if strHas crop "palak" || strHas crop "keerai" || strHas crop "spinach" then 1/10
      else if strHas crop "arai" || strHas crop "siru" then 1/10
      else if strHas crop "tomato" then -(1/2)
      else if strHas crop "pepper" then -(3/10)
      else if strHas crop "strawberry" then -(4/5)
      else if strHas crop "corn" || strHas crop "maize" then 3/10
      else 0

/-- The feature record built by `analyze_image_features`
(test_new_crops_model.py lines 69-78), polymorphic in the number type so the
scorer can be read both over `ℚ` (exact) and over `ℝ` (for the statistics,
whose `contrast` is a square root). -/
structure ImageFeatures (α : Type) where
  brightness : α
  contrast : α
  green_dominance : α
  color_balance : α
  texture_complexity : α
  r_mean : α
  g_mean : α
  b_mean : α

/-- Embedding of `simulate_web_model_prediction` (test_new_crops_model.py
lines 80-118).  Decimal constants of the source appear as the equal
fractions (`0.95 = 95/100` and so on); the `np.random.normal(0, 0.01)` draw
of line 113 is the explicit `jitter` argument. -/
def simulate_web_model_prediction (α : Type) [LinearOrderedField α]
    (features : Option (ImageFeatures α)) (crop_type : Option String)
    (jitter : α) : α :=
  match features with
  | none => 0
  | some f =>
    let health_score : α := 1/2
    let health_score : α :=
      if 6/10 < f.brightness ∧ 35/100 < f.green_dominance ∧ 2/100 < f.texture_complexity then
        95/100
      else if 4/10 < f.brightness ∧ 3/10 < f.green_dominance then
        75/100
      else if f.brightness < 3/10 ∨ f.green_dominance < 25/100 then
        15/100
      else
        45/100
    let health_score := if 2/10 < f.contrast ∧ f.contrast < 4/10 then health_score + 5/100 else health_score
    let health_score := if 3/10 < f.color_balance then health_score - 1/10 else health_score
    let crop_adjustment := get_crop_adjustment crop_type
    let health_score := health_score + (crop_adjustment : α) * (1/10)
    let health_score := health_score + jitter
    max (1/1000) (min (999/1000) health_score)

/-- Model of Python `int()` on a rational: truncation toward zero. -/
def pyInt (q : ℚ) : ℤ := if q < 0 then -⌊-q⌋ else ⌊q⌋

/-- Embedding of `is_healthy = prediction > 0.5` (api/predict.py line 139). -/
def vercel_is_healthy (p : ℚ) : Bool := decide ((1 : ℚ)/2 < p)

/-- Embedding of `is_healthy = prediction > 0.5` (create_ml_api.py line 151). -/
def flask_is_healthy (p : ℚ) : Bool := decide ((1 : ℚ)/2 < p)

/-- Embedding of `sim_healthy = sim_prediction > 0.5`
(test_new_crops_model.py line 222, the heuristic path). -/
def sim_is_healthy (p : ℚ) : Bool := decide ((1 : ℚ)/2 < p)

/-- Embedding of `confidence = int((prediction if is_healthy else
(1 - prediction)) * 100)` (api/predict.py line 140). -/
def vercel_confidence (p : ℚ) : ℤ :=
  pyInt ((if vercel_is_healthy p then p else 1 - p) * 100)

/-- Embedding of the identical confidence line of create_ml_api.py
(line 152). -/
def flask_confidence (p : ℚ) : ℤ :=
  pyInt ((if flask_is_healthy p then p else 1 - p) * 100)

/-- A normalized image tensor: 224 x 224 pixels, 3 channels, real-valued
entries (the web pipeline divides 8-bit pixels by 255 to land in [0,1]). -/
abbrev Tensor := Fin 224 → Fin 224 → Fin 3 → ℝ

/-- Embedding of `np.mean(img)` over the whole tensor
(test_new_crops_model.py line 47). -/
noncomputable def np_mean_all (img : Tensor) : ℝ :=
  (∑ i : Fin 224, ∑ j : Fin 224, ∑ c : Fin 3, img i j c) / (224 * 224 * 3)

/-- Embedding of `np.var(img)` (population variance,
test_new_crops_model.py line 48). -/
noncomputable def np_var_all (img : Tensor) : ℝ :=
  (∑ i : Fin 224, ∑ j : Fin 224, ∑ c : Fin 3, (img i j c - np_mean_all img) ^ 2) /
    (224 * 224 * 3)

/-- Embedding of the per-channel spatial means (test_new_crops_model.py
lines 52-54). -/
noncomputable def channel_mean (img : Tensor) (ch : Fin 3) : ℝ :=
  (∑ i : Fin 224, ∑ j : Fin 224, img i j ch) / (224 * 224)

/-- Embedding of `total_color = r_mean + g_mean + b_mean + 0.001`
(test_new_crops_model.py line 57). -/
noncomputable def total_color (img : Tensor) : ℝ :=
  channel_mean img 0 + channel_mean img 1 + channel_mean img 2 + 1/1000

/-- Embedding of `green_dominance = g_mean / total_color`
(test_new_crops_model.py line 58). -/
noncomputable def green_dominance_of (img : Tensor) : ℝ :=
  channel_mean img 1 / total_color img

/-- Embedding of `gray = np.mean(img, axis=2)` (test_new_crops_model.py
line 64). -/
noncomputable def gray_of (img : Tensor) (i j : Fin 224) : ℝ :=
  (∑ c : Fin 3, img i j c) / 3

/-- Embedding of `np.mean(np.abs(np.diff(gray, axis=1)))`
(test_new_crops_model.py lines 65, 67): 223 horizontal differences per
row. -/
noncomputable def edges_x_mean (img : Tensor) : ℝ :=
  (∑ i : Fin 224, ∑ j : Fin 223, |gray_of img i j.succ - gray_of img i j.castSucc|) /
    (224 * 223)

/-- Embedding of `np.mean(np.abs(np.diff(gray, axis=0)))`
(test_new_crops_model.py lines 66, 67): 223 vertical differences per
column. -/
noncomputable def edges_y_mean (img : Tensor) : ℝ :=
  (∑ i : Fin 223, ∑ j : Fin 224, |gray_of img i.succ j - gray_of img i.castSucc j|) /
    (223 * 224)

/-- Embedding of `analyze_image_features` (test_new_crops_model.py lines
38-78); a `None` array (failed load) propagates as `none`. -/
noncomputable def analyze_image_features (img_array : Option Tensor) :
    Option (ImageFeatures ℝ) :=
  match img_array with
  | none => none
  | some img =>
    some { brightness := np_mean_all img
           contrast := Real.sqrt (np_var_all img)
           green_dominance := green_dominance_of img
           color_balance := |channel_mean img 0 - channel_mean img 2|
           texture_complexity := edges_x_mean img + edges_y_mean img
           r_mean := channel_mean img 0
           g_mean := channel_mean img 1
           b_mean := channel_mean img 2 }

/-- The constant half-intensity tensor, used as a concrete witness input. -/
noncomputable def constHalfTensor : Tensor := fun _ _ _ => 1/2

/-- The uniform mid-green test image of end-to-end scenario A: every pixel
is RGB (50, 150, 50) / 255. -/
noncomputable def uniformGreen : Tensor := fun _ _ c => (if c = 1 then 150 else 50) / 255

/-- The feature record the extractor computes on the uniform green image. -/
noncomputable def uniformGreenFeatures : ImageFeatures ℝ :=
  { brightness := 50 / 153
    contrast := Real.sqrt (800 / 23409)
    green_dominance := 30000 / 50051
    color_balance := 0
    texture_complexity := 0
    r_mean := 10 / 51
    g_mean := 10 / 17
    b_mean := 10 / 51 }

/-- Embedding of `preprocess_image` of api/predict.py (lines 47-75): a
successful decode passes through, any decode failure is re-raised as a
generic exception whose message is the original one behind the fixed text
"Image preprocessing failed: " — there is no dedicated error type. -/
def preprocess_image_vercel (I : Type) (decoded : Except String I) : Except String I :=
  match decoded with
  | .ok img => .ok img
  | .error e => .error ("Image preprocessing failed: " ++ e)

/-- Embedding of the control flow of `handler.do_POST` of api/predict.py
(lines 114-171) as the HTTP status it sends: a request without an image
field gets 400; any exception raised by model loading, preprocessing or
prediction is caught by the blanket handler of lines 170-171 and gets 500;
otherwise 200.  `m` abstracts `load_model`, `decoded` the PIL decode
inside preprocessing, and `f` the model prediction. -/
def vercel_do_POST_status (I : Type) (hasImage : Bool) (m : Except String Unit)
    (decoded : Except String I) (f : I → Except String ℚ) : ℕ :=
  if hasImage = false then 400
  else
    match m with
    | .error _ => 500
    | .ok _ =>
      match preprocess_image_vercel I decoded with
      | .error _ => 500
      | .ok img =>
        match f img with
        | .error _ => 500
        | .ok _ => 200

/-- Embedding of `preprocess_image` of create_ml_api.py (lines 40-70):
any decode failure is swallowed into a `None` return (after printing). -/
def preprocess_image_flask (I : Type) (decoded : Except String I) : Option I :=
  match decoded with
  | .ok img => some img
  | .error _ => none

/-- Embedding of the control flow of the Flask `/predict` route of
create_ml_api.py (lines 117-181) as the HTTP status it returns: missing
model gives 500, missing image field 400, a `None` from preprocessing 400,
a prediction exception 500, success 200. -/
def flask_predict_status (I : Type) (modelLoaded hasImage : Bool)
    (decoded : Except String I) (f : I → Except String ℚ) : ℕ :=
  if modelLoaded = false then 500
  else if hasImage = false then 400
  else
    match preprocess_image_flask I decoded with
    | none => 400
    | some img =>
      match f img with
      | .error _ => 500
      | .ok _ => 200

/-- Embedding of `get_crop_recommendations` of api/predict.py (lines
77-111); `crop_type` is optional to model a Python `None`, and Python
truthiness of strings is modelled through `py_or` and the explicit empty
test. -/
def get_crop_recommendations (is_healthy : Bool) (crop_type : Option String) : String :=
  let crop : String :=
    match crop_type with
    | none => "plant"
    | some s => if s.isEmpty then "plant" else lowerString s
  if is_healthy then
    let recommendations :=
      "Your " ++ py_or crop_type "plant" ++
        " appears healthy! Continue with current care routine. "
    let recommendations := recommendations ++
      (if strHas crop "palak" || strHas crop "keerai" || strHas crop "spinach" then
        "Leafy greens benefit from regular harvesting to encourage new growth. Maintain pH 6.0-6.5 and ensure adequate nitrogen. "
      else if strHas crop "tomato" then
        "Monitor for early blight and ensure good air circulation. Support heavy fruit branches. "
      else if strHas crop "strawberry" then
        "Watch for powdery mildew and ensure good drainage. Remove runners for better fruit production. "
      else if strHas crop "pepper" then
        "Maintain consistent moisture and watch for bacterial spot. Ensure adequate calcium. "
      else "")
    recommendations ++
      "Monitor regularly for any changes in leaf color or texture. Check for pests weekly as prevention."
  else
    let recommendations :=
      py_or crop_type "Plant" ++ " shows signs of pest or disease. Immediate actions: " ++
        "1) Isolate the plant to prevent spread, 2) Carefully inspect leaves and stems for pests, "
    let recommendations := recommendations ++
      (if strHas crop "palak" || strHas crop "keerai" || strHas crop "spinach" then
        "3) Check for aphids and leaf miners (common in leafy greens), 4) Ensure proper air circulation to prevent downy mildew, "
      else if strHas crop "tomato" then
        "3) Check for whiteflies, aphids, and early blight, 4) Remove affected leaves immediately, "
      else if strHas crop "strawberry" then
        "3) Look for spider mites and powdery mildew, 4) Improve air circulation and reduce humidity, "
      else if strHas crop "pepper" then
        "3) Check for thrips and bacterial spot, 4) Ensure good drainage and avoid overhead watering, "
      else
        "3) Check root system for rot or discoloration, 4) Adjust nutrient solution pH and concentration, ")
    recommendations ++
      "5) Consider applying organic treatment like neem oil, 6) Monitor closely for 48-72 hours and adjust care as needed."

/-- Embedding of `get_crop_specific_recommendations` of create_ml_api.py
(lines 72-106), which is textually identical to the api/predict.py copy. -/
def get_crop_specific_recommendations (is_healthy : Bool) (crop_type : Option String) :
    String :=
  get_crop_recommendations is_healthy crop_type

/-- Helper: on a present feature record the scorer is the clamp of some
pre-clamp value (used to derive the range bounds). -/
lemma simulate_some_clamped (f : ImageFeatures ℚ) (c : Option String) (j : ℚ) :
    ∃ x : ℚ, simulate_web_model_prediction ℚ (some f) c j =
      max (1/1000) (min (999/1000) x) :=
  ⟨_, rfl⟩

/-- C1: for every feature record, the heuristic scorer computes its
pre-jitter score by the mutually exclusive primary tier (0.95 / 0.75 /
0.15 / 0.45 on the stated brightness, green-dominance and
texture-complexity thresholds), then the two independent adjustments
(+0.05 for contrast strictly between 0.2 and 0.4, and -0.1 for color
balance above 0.3), then the dampened crop bias `cropBias * 0.1`; the
jitter draw and the final clamp are applied after that sum, exactly as in
the source. -/
theorem scorer_branch_structure (f : ImageFeatures ℚ) (c : Option String) (j : ℚ) :
    simulate_web_model_prediction ℚ (some f) c j =
      max (1/1000) (min (999/1000)
        ((if 6/10 < f.brightness ∧ 35/100 < f.green_dominance ∧ 2/100 < f.texture_complexity then
            (95/100 : ℚ)
          else if 4/10 < f.brightness ∧ 3/10 < f.green_dominance then
            75/100
          else if f.brightness < 3/10 ∨ f.green_dominance < 25/100 then
            15/100
          else
            45/100)
          + (if 2/10 < f.contrast ∧ f.contrast < 4/10 then 5/100 else 0)
          + (if 3/10 < f.color_balance then -(1/10) else 0)
          + get_crop_adjustment c * (1/10) + j)) := by
  simp only [simulate_web_model_prediction, Rat.cast_id]
  congr 1
  congr 1
  split_ifs <;> ring

/-- C6: on any feature record, any crop label and any jitter draw, the
scorer output lies in [0.001, 0.999]; in particular it is never exactly 0
and never exactly 1. -/
theorem scorer_output_clamped (f : ImageFeatures ℚ) (c : Option String) (j : ℚ) :
    1/1000 ≤ simulate_web_model_prediction ℚ (some f) c j ∧
    simulate_web_model_prediction ℚ (some f) c j ≤ 999/1000 ∧
    simulate_web_model_prediction ℚ (some f) c j ≠ 0 ∧
    simulate_web_model_prediction ℚ (some f) c j ≠ 1 := by
  obtain ⟨x, hx⟩ := simulate_some_clamped f c j
  rw [hx]
  refine ⟨le_max_left _ _, max_le (by norm_num) (min_le_left _ _), ?_, ?_⟩
  · intro h0
    have h1 : (1:ℚ)/1000 ≤ 0 := h0 ▸ le_max_left _ _
    norm_num at h1
  · intro h0
    have h1 : (1:ℚ) ≤ 999/1000 := h0 ▸ max_le (by norm_num) (min_le_left _ _)
    norm_num at h1

/-- C10: a missing (`None`) feature record makes the scorer return exactly
0, bypassing the tiers, the crop bias, the jitter and the [0.001, 0.999]
clamp, so 0 lies strictly below the clamp's lower bound. -/
theorem scorer_none_returns_zero (c : Option String) (j : ℚ) :
    simulate_web_model_prediction ℚ none c j = 0 ∧
    ¬ (1/1000 ≤ simulate_web_model_prediction ℚ none c j) := by
  refine ⟨rfl, ?_⟩
  rw [show simulate_web_model_prediction ℚ none c j = 0 from rfl]
  norm_num

/-- C4: on both real-model paths (the Vercel handler and the Flask API)
and on the heuristic path, `isHealthy` holds exactly when the probability
strictly exceeds 0.5, and an input of exactly 0.5 is classified as not
healthy ("Affected"). -/
theorem decision_threshold_strict :
    (∀ p : ℚ, (vercel_is_healthy p = true ↔ 1/2 < p) ∧
      flask_is_healthy p = vercel_is_healthy p ∧
      sim_is_healthy p = vercel_is_healthy p) ∧
    vercel_is_healthy (1/2) = false ∧
    flask_is_healthy (1/2) = false ∧
    sim_is_healthy (1/2) = false := by
  refine ⟨fun p => ⟨by simp [vercel_is_healthy], rfl, rfl⟩, ?_, ?_, ?_⟩ <;>
    · simp only [vercel_is_healthy, flask_is_healthy, sim_is_healthy,
        decide_eq_false_iff_not]
      norm_num

/-- C5: the crop bias lookup case-folds the label and tests substring
membership in the fixed priority order palak|keerai|spinach (+0.1), then
arai|siru (+0.1), then tomato (-0.5), pepper (-0.3), strawberry (-0.8),
corn|maize (+0.3), else 0; `None` and the empty label give 0; the label
"arai keerai" is matched by the first rule (via "keerai"), and in labels
containing several keywords the earlier rule wins. -/
theorem crop_bias_table_priority :
    get_crop_adjustment none = 0 ∧
    get_crop_adjustment (some "") = 0 ∧
    get_crop_adjustment (some "Palak") = 1/10 ∧
    get_crop_adjustment (some "keerai") = 1/10 ∧
    get_crop_adjustment (some "spinach") = 1/10 ∧
    get_crop_adjustment (some "arai") = 1/10 ∧
    get_crop_adjustment (some "siru") = 1/10 ∧
    get_crop_adjustment (some "Tomato") = -(1/2) ∧
    get_crop_adjustment (some "bell pepper") = -(3/10) ∧
    get_crop_adjustment (some "strawberry") = -(4/5) ∧
    get_crop_adjustment (some "corn") = 3/10 ∧
    get_crop_adjustment (some "maize") = 3/10 ∧
    get_crop_adjustment (some "cucumber") = 0 ∧
    strHas (lowerString "arai keerai") "keerai" = true ∧
    get_crop_adjustment (some "arai keerai") = 1/10 ∧
    get_crop_adjustment (some "tomato pepper") = -(1/2) ∧
    get_crop_adjustment (some "corn strawberry") = -(4/5) ∧
    get_crop_adjustment (some "palak tomato") = 1/10 := by
  refine ⟨rfl, ?_, ?_, ?_, ?_, ?_, ?_, ?_, ?_, ?_, ?_, ?_, ?_, ?_, ?_, ?_, ?_, ?_⟩ <;>
    simp +decide [get_crop_adjustment]

/-- C3 counterexample: at probability 0.999 both confidence computations
truncate 99.9 to 99, while the claimed rounding (clamped to [0,100])
gives 100. -/
theorem confidence_rounding_counterexample :
    vercel_confidence (999/1000) = 99 ∧
    flask_confidence (999/1000) = 99 ∧
    min 100 (max 0 (round ((999/1000 : ℚ) * 100))) = 100 ∧
    vercel_confidence (999/1000) ≠ min 100 (max 0 (round ((999/1000 : ℚ) * 100))) := by
  have hh : vercel_is_healthy (999/1000) = true := by
    simp only [vercel_is_healthy, decide_eq_true_eq]; norm_num
  have h1 : vercel_confidence (999/1000) = 99 := by
    rw [vercel_confidence, hh, if_pos rfl, pyInt, if_neg (by norm_num)]
    norm_num
  have h3 : min 100 (max 0 (round ((999/1000 : ℚ) * 100))) = 100 := by
    norm_num [round_eq]
  exact ⟨h1, h1, h3, by rw [h1, h3]; decide⟩

/-- C3 amended: both confidence computations apply Python `int()`, i.e.
truncation toward zero (here the floor, the operand being nonnegative), to
100 times the winning-class probability — not rounding — and for any
probability in [0,1] the result automatically lies in [0,100] with no
explicit clamping. -/
theorem confidence_truncation_bounds (p : ℚ) (h0 : 0 ≤ p) (h1 : p ≤ 1) :
    vercel_confidence p = ⌊(if vercel_is_healthy p then p else 1 - p) * 100⌋ ∧
    flask_confidence p = vercel_confidence p ∧
    0 ≤ vercel_confidence p ∧ vercel_confidence p ≤ 100 := by
  have hx : 0 ≤ (if vercel_is_healthy p then p else 1 - p) * 100 := by
    have : 0 ≤ (if vercel_is_healthy p then p else 1 - p) := by
      split_ifs <;> linarith
    linarith
  have hy : (if vercel_is_healthy p then p else 1 - p) * 100 ≤ 100 := by
    have : (if vercel_is_healthy p then p else 1 - p) ≤ 1 := by
      split_ifs <;> linarith
    linarith
  have htr : vercel_confidence p = ⌊(if vercel_is_healthy p then p else 1 - p) * 100⌋ := by
    rw [vercel_confidence, pyInt, if_neg (not_lt.mpr hx)]
  refine ⟨htr, rfl, ?_, ?_⟩
  · rw [htr]; exact Int.floor_nonneg.mpr hx
  · rw [htr]
    have := Int.floor_le_floor (α := ℚ) hy
    rwa [show ⌊(100:ℚ)⌋ = 100 by norm_num] at this

/-- Witness for the amended C3 theorem at the concrete probability 0.999. -/
theorem confidence_truncation_bounds_witness :
    vercel_confidence (999/1000) =
      ⌊(if vercel_is_healthy (999/1000) then (999:ℚ)/1000 else 1 - 999/1000) * 100⌋ ∧
    flask_confidence (999/1000) = vercel_confidence (999/1000) ∧
    0 ≤ vercel_confidence (999/1000) ∧ vercel_confidence (999/1000) ≤ 100 :=
  confidence_truncation_bounds (999/1000) (by norm_num) (by norm_num)

/-- Helper: each channel mean of a tensor with nonnegative entries is
nonnegative. -/
lemma channel_mean_nonneg (img : Tensor) (h : ∀ i j c, 0 ≤ img i j c) (ch : Fin 3) :
    0 ≤ channel_mean img ch := by
  apply div_nonneg _ (by norm_num)
  exact Finset.sum_nonneg fun i _ => Finset.sum_nonneg fun j _ => h i j ch

/-- C7: for every normalized tensor (entrywise in [0,1]), the green
dominance `gMean / (rMean + gMean + bMean + 0.001)` lies in [0,1], and the
denominator is at least 0.001 by construction, so the division is defined. -/
theorem green_dominance_in_unit_interval (img : Tensor)
    (h : ∀ i j c, 0 ≤ img i j c ∧ img i j c ≤ 1) :
    0 ≤ green_dominance_of img ∧ green_dominance_of img ≤ 1 ∧
    1/1000 ≤ total_color img := by
  have h0 : ∀ i j c, 0 ≤ img i j c := fun i j c => (h i j c).1
  have hr : 0 ≤ channel_mean img 0 := channel_mean_nonneg img h0 0
  have hg : 0 ≤ channel_mean img 1 := channel_mean_nonneg img h0 1
  have hb : 0 ≤ channel_mean img 2 := channel_mean_nonneg img h0 2
  have hden : 1/1000 ≤ total_color img := by rw [total_color]; linarith
  have hdpos : 0 < total_color img := lt_of_lt_of_le (by norm_num) hden
  refine ⟨div_nonneg hg hdpos.le, ?_, hden⟩
  rw [green_dominance_of, div_le_one hdpos, total_color]
  linarith

/-- Witness for the C7 theorem at the constant half-intensity tensor. -/
theorem green_dominance_in_unit_interval_witness :
    0 ≤ green_dominance_of constHalfTensor ∧
    green_dominance_of constHalfTensor ≤ 1 ∧
    1/1000 ≤ total_color constHalfTensor :=
  green_dominance_in_unit_interval constHalfTensor
    (fun _ _ _ => ⟨by norm_num [constHalfTensor], by norm_num [constHalfTensor]⟩)

/-- Helper: the channel sum of any pixel of the uniform green image. -/
lemma uniformGreen_pixel_sum (i j : Fin 224) :
    ∑ c : Fin 3, uniformGreen i j c = 250 / 255 := by
  simp [uniformGreen, Fin.sum_univ_three]
  norm_num

/-- Helper: brightness of the uniform green image is 50/153, about 0.327. -/
lemma uniformGreen_mean : np_mean_all uniformGreen = 50 / 153 := by
  rw [np_mean_all,
    Finset.sum_congr rfl fun i _ => Finset.sum_congr rfl fun j _ => uniformGreen_pixel_sum i j]
  simp [Finset.sum_const, Finset.card_univ]
  norm_num

/-- Helper: the squared deviations of one pixel of the uniform green image
from its global mean. -/
lemma uniformGreen_pixel_sq (i j : Fin 224) :
    ∑ c : Fin 3, (uniformGreen i j c - 50 / 153) ^ 2 = 2400 / 23409 := by
  simp [uniformGreen, Fin.sum_univ_three]
  norm_num

/-- Helper: population variance of the uniform green image. -/
lemma uniformGreen_var : np_var_all uniformGreen = 800 / 23409 := by
  rw [np_var_all, uniformGreen_mean,
    Finset.sum_congr rfl fun i _ => Finset.sum_congr rfl fun j _ => uniformGreen_pixel_sq i j]
  simp [Finset.sum_const, Finset.card_univ]
  norm_num

/-- Helper: red channel mean of the uniform green image. -/
lemma uniformGreen_channel0 : channel_mean uniformGreen 0 = 10 / 51 := by
  simp [channel_mean, uniformGreen, Finset.sum_const, Finset.card_univ]
  norm_num

/-- Helper: green channel mean of the uniform green image. -/
lemma uniformGreen_channel1 : channel_mean uniformGreen 1 = 10 / 17 := by
  simp [channel_mean, uniformGreen, Finset.sum_const, Finset.card_univ]
  norm_num

/-- Helper: blue channel mean of the uniform green image. -/
lemma uniformGreen_channel2 : channel_mean uniformGreen 2 = 10 / 51 := by
  simp [channel_mean, uniformGreen, Finset.sum_const, Finset.card_univ]
  norm_num

/-- Helper: green dominance of the uniform green image, about 0.599. -/
lemma uniformGreen_gd : green_dominance_of uniformGreen = 30000 / 50051 := by
  rw [green_dominance_of, total_color, uniformGreen_channel0, uniformGreen_channel1,
    uniformGreen_channel2]
  norm_num

/-- Helper: the grayscale image of the uniform green image is constant. -/
lemma uniformGreen_gray (i j : Fin 224) : gray_of uniformGreen i j = 50 / 153 := by
  rw [gray_of, uniformGreen_pixel_sum]
  norm_num

/-- Helper: no horizontal edges in the uniform green image. -/
lemma uniformGreen_edges_x : edges_x_mean uniformGreen = 0 := by
  simp [edges_x_mean, uniformGreen_gray]

/-- Helper: no vertical edges in the uniform green image. -/
lemma uniformGreen_edges_y : edges_y_mean uniformGreen = 0 := by
  simp [edges_y_mean, uniformGreen_gray]

/-- Helper: the extractor on the uniform green image yields exactly
`uniformGreenFeatures`. -/
lemma uniformGreen_analyze :
    analyze_image_features (some uniformGreen) = some uniformGreenFeatures := by
  simp only [analyze_image_features, uniformGreenFeatures, Option.some.injEq,
    ImageFeatures.mk.injEq]
  refine ⟨uniformGreen_mean, ?_, uniformGreen_gd, ?_, ?_, uniformGreen_channel0,
    uniformGreen_channel1, uniformGreen_channel2⟩
  · rw [uniformGreen_var]
  · rw [uniformGreen_channel0, uniformGreen_channel2]
    simp
  · rw [uniformGreen_edges_x, uniformGreen_edges_y]
    norm_num

/-- Helper: the contrast of the uniform green image is below the 0.2
threshold of the secondary contrast adjustment. -/
lemma uniformGreen_contrast_lt : Real.sqrt (800 / 23409) < 2 / 10 := by
  rw [show (2:ℝ)/10 = Real.sqrt ((2/10)^2) from (Real.sqrt_sq (by norm_num)).symm]
  apply Real.sqrt_lt_sqrt (by norm_num)
  norm_num

/-- Helper: the scorer on the uniform green features with crop "tomato"
and zero jitter returns exactly 0.4. -/
lemma uniformGreen_score :
    simulate_web_model_prediction ℝ (some uniformGreenFeatures) (some "tomato") 0 = 2/5 := by
  have hadj : get_crop_adjustment (some "tomato") = -(1/2) := by
    simp +decide [get_crop_adjustment]
  have h1 : ¬((6:ℝ)/10 < 50/153 ∧ (35:ℝ)/100 < 30000/50051 ∧ (2:ℝ)/100 < 0) := by
    intro hc
    have := hc.1
    norm_num at this
  have h2 : ¬((4:ℝ)/10 < 50/153 ∧ (3:ℝ)/10 < 30000/50051) := by
    intro hc
    have := hc.1
    norm_num at this
  have h3 : ¬((50:ℝ)/153 < 3/10 ∨ (30000:ℝ)/50051 < 25/100) := by
    push_neg
    constructor <;> norm_num
  have h4 : ¬((2:ℝ)/10 < Real.sqrt (800/23409) ∧ Real.sqrt (800/23409) < 4/10) :=
    fun hc => absurd hc.1 (not_lt.mpr uniformGreen_contrast_lt.le)
  have h5 : ¬((3:ℝ)/10 < 0) := by norm_num
  simp only [simulate_web_model_prediction, uniformGreenFeatures, hadj]
  rw [if_neg h5, if_neg h4, if_neg h1, if_neg h2, if_neg h3]
  push_cast
  rw [show (45:ℝ)/100 + -(1/2) * (1/10) + 0 = 2/5 by norm_num]
  rw [min_eq_right (by norm_num), max_eq_right (by norm_num)]

/-- C2 counterexample: on the uniform mid-green image with crop label
"tomato" the pipeline's jitter-free probability is exactly 0.4 — not in
the claimed open range (0.65, 0.75) — and the verdict is not healthy,
refuting the claimed tier-2 outcome. -/
theorem scenarioA_counterexample :
    analyze_image_features (some uniformGreen) = some uniformGreenFeatures ∧
    simulate_web_model_prediction ℝ (some uniformGreenFeatures) (some "tomato") 0 = 2/5 ∧
    ¬ ((13:ℝ)/20 < 2/5 ∧ (2:ℝ)/5 < 3/4) ∧
    sim_is_healthy (2/5) = false := by
  refine ⟨uniformGreen_analyze, uniformGreen_score, by norm_num, ?_⟩
  simp only [sim_is_healthy, decide_eq_false_iff_not]
  norm_num

/-- C2 amended: on the uniform mid-green image with crop label "tomato",
brightness is 50/153 (about 0.327) and green dominance 30000/50051 (about
0.599); brightness fails the 0.4 threshold of tier 2, so the scorer takes
the fallback tier (base 0.45); the tomato bias contributes
-0.5 x 0.1 = -0.05; the jitter-free final probability is exactly 0.4,
outside (0.65, 0.75), and `isHealthy` is False. -/
theorem scenarioA_amended :
    analyze_image_features (some uniformGreen) = some uniformGreenFeatures ∧
    uniformGreenFeatures.brightness = 50/153 ∧
    uniformGreenFeatures.green_dominance = 30000/50051 ∧
    ¬ ((4:ℝ)/10 < uniformGreenFeatures.brightness) ∧
    get_crop_adjustment (some "tomato") = -(1/2) ∧
    simulate_web_model_prediction ℝ (some uniformGreenFeatures) (some "tomato") 0 = 2/5 ∧
    sim_is_healthy (2/5) = false := by
  refine ⟨uniformGreen_analyze, rfl, rfl, ?_, ?_, uniformGreen_score, ?_⟩
  · rw [show uniformGreenFeatures.brightness = 50/153 from rfl]
    norm_num
  · simp +decide [get_crop_adjustment]
  · simp only [sim_is_healthy, decide_eq_false_iff_not]
    norm_num

/-- C8 counterexample: a request whose image bytes fail to decode (here
with PIL's "cannot identify image file" message) is answered by the Vercel
handler with HTTP 500, which is not a 4xx status, refuting the claim that
decode failures surface as a 4xx-equivalent client-input result. -/
theorem decode_error_counterexample :
    vercel_do_POST_status Unit true (.ok ()) (.error "cannot identify image file")
      (fun _ => .ok (9/10)) = 500 ∧
    ¬ (400 ≤ vercel_do_POST_status Unit true (.ok ()) (.error "cannot identify image file")
        (fun _ => .ok (9/10)) ∧
      vercel_do_POST_status Unit true (.ok ()) (.error "cannot identify image file")
        (fun _ => .ok (9/10)) < 500) := by
  refine ⟨rfl, ?_⟩
  intro hc
  exact absurd hc.2 (by decide)

/-- C8 amended: no `ImageDecodeError` type exists; on undecodable bytes
the Vercel preprocessing re-raises a generic exception carrying only the
message text "Image preprocessing failed: " followed by the decode
message, and its handler surfaces HTTP 500 (never a silent 200 with a
substitute image), while the Flask route turns the swallowed `None` into
HTTP 400. -/
theorem decode_error_amended (e : String) (f : Unit → Except String ℚ) :
    preprocess_image_vercel Unit (.error e) =
      .error ("Image preprocessing failed: " ++ e) ∧
    vercel_do_POST_status Unit true (.ok ()) (.error e) f = 500 ∧
    vercel_do_POST_status Unit true (.ok ()) (.error e) f ≠ 200 ∧
    flask_predict_status Unit true true (.error e) f = 400 := by
  refine ⟨rfl, rfl, ?_, rfl⟩
  intro hc
  rw [show vercel_do_POST_status Unit true (.ok ()) (.error e) f = 500 from rfl] at hc
  norm_num at hc

/-- C9: the recommendation generator is a pure function of the verdict and
the crop label; for an affected "Palak" its text contains the phrase
"aphids and leaf miners", and for a healthy "Tomato" it contains "early
blight" — on both the Vercel and the Flask copy. -/
theorem recommendations_contain_key_phrases :
    strHas (get_crop_recommendations false (some "Palak")) "aphids and leaf miners" = true ∧
    strHas (get_crop_recommendations true (some "Tomato")) "early blight" = true ∧
    get_crop_specific_recommendations = get_crop_recommendations := by
  exact ⟨by decide, by decide, rfl⟩
